import Mathlib

/-
  Verification of the interview voice-agent backend (src/agent.py).

  The file shallowly embeds the two tool functions of `InterviewQuestionsFnc`
  (`get_interview_questions` and `save_single_interview_answer`) and, where the
  repository's second source variant is absent from src/, a spec-modelled
  by-identifier question source.  Python strings are modelled as Lean `String`
  (a list of characters); `str.lower()` is modelled character-wise with
  `Char.toLower` (ASCII simple case mapping — every catalog key is ASCII), and
  `str.replace(" ", "_")` with a character map, which coincides with Python's
  substring replacement for a single-character pattern.
-/

namespace InterviewAgent

/-- Character-wise model of Python `str.lower()`. -/
def pyLower (s : String) : String :=
  String.mk (s.data.map Char.toLower)

/-- Replace the space character by an underscore, as `str.replace(" ", "_")`
does for a single-character pattern. -/
def underscoreSpace (c : Char) : Char :=
  if c = ' ' then '_' else c

/-- Character-wise model of Python `s.replace(" ", "_")`. -/
def pyReplaceSpaceWithUnderscore (s : String) : String :=
  String.mk (s.data.map underscoreSpace)

/-- Embedding of `domain.lower().replace(" ", "_")` (src/agent.py line 83). -/
def normalizeDomain (s : String) : String :=
  pyReplaceSpaceWithUnderscore (pyLower s)

/-- The `software_engineering` entry of the question catalog (src/agent.py lines 40-44). -/
def softwareEngineeringQuestions : List String :=
  ["Describe the most complex software system you've designed.",
   "What's your preferred methodology for software development?",
   "How do you stay updated with new technologies?"]

/-- The `data_science` entry of the question catalog (src/agent.py lines 45-51). -/
def dataScienceQuestions : List String :=
  ["Walk me through your typical data analysis workflow.",
   "How do you handle missing or inconsistent data?",
   "Describe a machine learning project that had a significant impact.",
   "What metrics do you consider when evaluating model performance?",
   "How do you communicate complex technical findings to non-technical stakeholders?"]

/-- The `product_management` entry of the question catalog (src/agent.py lines 52-58). -/
def productManagementQuestions : List String :=
  ["How do you prioritize features for a product roadmap?",
   "Describe a product you improved based on user feedback.",
   "How do you balance user needs with business objectives?",
   "Walk me through your product development process.",
   "How do you measure the success of a product?"]

/-- The `machine_learning` entry of the question catalog (src/agent.py lines 59-65). -/
def machineLearningQuestions : List String :=
  ["Explain a challenging machine learning problem you've solved.",
   "How do you approach feature engineering?",
   "Describe your experience with different ML algorithms.",
   "How do you handle overfitting and underfitting?",
   "What's your approach to model interpretability?"]

/-- The `cybersecurity` entry of the question catalog (src/agent.py lines 66-72). -/
def cybersecurityQuestions : List String :=
  ["Describe a security vulnerability you've identified or mitigated.",
   "How do you stay current with emerging security threats?",
   "Walk me through your incident response strategy.",
   "How do you balance security with user experience?",
   "Describe your approach to threat modeling."]

/-- The `general` entry of the question catalog (src/agent.py lines 73-79). -/
def generalQuestions : List String :=
  ["Tell me about yourself and your professional journey.",
   "What are your greatest professional strengths?",
   "Describe a significant challenge you've overcome at work.",
   "Where do you see your career progressing?",
   "What motivates you professionally?"]

/-- The `interview_questions` dictionary (src/agent.py lines 39-80), as an
association list in source order. -/
def interview_questions : List (String × List String) :=
  [("software_engineering", softwareEngineeringQuestions),
   ("data_science", dataScienceQuestions),
   ("product_management", productManagementQuestions),
   ("machine_learning", machineLearningQuestions),
   ("cybersecurity", cybersecurityQuestions),
   ("general", generalQuestions)]

/-- Python dictionary lookup: first (and here only) binding of the key. -/
def dictLookup : List (String × List String) → String → Option (List String)
  | [], _ => none
  | (k, v) :: rest, d => if d = k then some v else dictLookup rest d

/-- Embedding of `InterviewQuestionsFnc.get_interview_questions`
(src/agent.py lines 27-88): normalize the domain, fall back to `"general"`
when the normalized key is not in the catalog, and return the catalog entry. -/
def get_interview_questions (domain : String) : List String :=
  let d0 := normalizeDomain domain
  let d := if (dictLookup interview_questions d0).isSome then d0 else "general"
  (dictLookup interview_questions d).getD []

/-- For a valid code point below the surrogate range, `Char.ofNat` round-trips
through `Char.toNat`. -/
theorem toNat_ofNat_of_lt {n : Nat} (h : n < 0xd800) : (Char.ofNat n).toNat = n := by
  rw [Char.ofNat, dif_pos (Or.inl h)]
  rfl

/-- `Char.toLower` is idempotent: lowering an already lowered character is the
identity (the lowered code point of a basic latin capital lies in 97-122). -/
theorem toLower_idem (c : Char) : c.toLower.toLower = c.toLower := by
  simp only [Char.toLower]
  by_cases h : c.toNat ≥ 65 ∧ c.toNat ≤ 90
  · rw [if_pos h]
    have hv : (Char.ofNat (c.toNat + 32)).toNat = c.toNat + 32 :=
      toNat_ofNat_of_lt (by omega)
    rw [hv, if_neg (by omega)]
  · rw [if_neg h, if_neg h]

/-- One normalization step on a single character is idempotent. -/
theorem underscoreSpace_toLower_idem (c : Char) :
    underscoreSpace (Char.toLower (underscoreSpace (Char.toLower c)))
      = underscoreSpace (Char.toLower c) := by
  by_cases hc : Char.toLower c = ' '
  · rw [hc]
    decide
  · simp only [underscoreSpace, if_neg hc, toLower_idem, if_neg hc]

/-- List version of the idempotence of the character normalization. -/
theorem map_normalize_idem (l : List Char) :
    ((l.map Char.toLower |>.map underscoreSpace).map Char.toLower).map underscoreSpace
      = (l.map Char.toLower).map underscoreSpace := by
  induction l with
  | nil => rfl
  | cons c cs ih =>
      simp only [List.map_cons, underscoreSpace_toLower_idem, List.cons.injEq]
      exact ⟨trivial, ih⟩

/-- Every value stored in the question catalog is a non-empty list. -/
theorem dictLookup_interview_ne_nil :
    ∀ d q, dictLookup interview_questions d = some q → q ≠ [] := by
  intro d q h
  simp only [interview_questions, dictLookup] at h
  repeat' split at h
  all_goals first
    | exact Option.noConfusion h
    | (injection h with h; subst h; decide)

/-- The answer document built at src/agent.py lines 121-128; `timestamp` is
the `datetime.now()` value captured at call time, modelled as a `Nat`. -/
structure AnswerDocument where
  user_id : String
  domain : String
  timestamp : Nat
  question_number : Int
  question : String
  answer : String
deriving DecidableEq

/-- The `answers` collection of the `interview-app` database.  The store
assigns each inserted document a fresh identifier (pymongo's ObjectId),
modelled as a counter. -/
structure AnswersCollection where
  docs : List (Nat × AnswerDocument)
  nextId : Nat
deriving DecidableEq

/-- The storage-layer fault surfaced by `save_single_interview_answer`:
a `PyMongoError` re-raised by the `except` block (src/agent.py lines 139-142),
the spec's `PersistenceFailure`. -/
inductive SaveError where
  | persistenceFailure
deriving DecidableEq

/-- Decimal digits of a positive number, most significant first. -/
def natDigits (n : Nat) : List Char :=
  if n = 0 then [] else natDigits (n / 10) ++ [Nat.digitChar (n % 10)]
decreasing_by exact Nat.div_lt_self (Nat.pos_of_ne_zero (by assumption)) (by decide)

/-- Read decimal digits back into a number (inverse of `natDigits`). -/
def unDigits (l : List Char) : Nat :=
  l.foldl (fun a c => a * 10 + (c.toNat - 48)) 0

/-- Model of Python `str` applied to the store-assigned record identifier:
the decimal rendering of the identifier counter. -/
def pyStr (n : Nat) : String :=
  if n = 0 then "0" else String.mk (natDigits n)

/-- Everything observable about one call of `save_single_interview_answer`:
the resulting store, the returned value or propagated error, and the
resource/effect counters of the call. -/
structure SaveOutcome where
  store : AnswersCollection
  result : Except SaveError String
  insertAttempts : Nat
  connectionsOpened : Nat
  connectionsClosed : Nat

/-- Embedding of `InterviewQuestionsFnc.save_single_interview_answer`
(src/agent.py lines 91-142).  `now` is the `datetime.now()` value at call
time; `insertFaults` models whether `insert_one` raises a `PyMongoError`.
The call opens one MongoDB connection (`pymongo.MongoClient`), attempts one
insert, and on success closes the connection and returns `str(inserted_id)`.
On a fault the `except` block re-raises, so the `client.close()` on line 134
is never reached on that path. -/
def save_single_interview_answer (now : Nat) (insertFaults : Bool)
    (store : AnswersCollection)
    (user_id question answer interview_domain : String)
    (question_number : Int) : SaveOutcome :=
  let answer_document : AnswerDocument :=
    { user_id := user_id, domain := interview_domain, timestamp := now,
      question_number := question_number, question := question,
      answer := answer }
  if insertFaults then
    { store := store, result := Except.error SaveError.persistenceFailure,
      insertAttempts := 1, connectionsOpened := 1, connectionsClosed := 0 }
  else
    let inserted_id := store.nextId
    { store := { docs := store.docs ++ [(inserted_id, answer_document)],
                 nextId := inserted_id + 1 },
      result := Except.ok (pyStr inserted_id),
      insertAttempts := 1, connectionsOpened := 1, connectionsClosed := 1 }

/-- An empty `answers` collection. -/
def emptyAnswers : AnswersCollection :=
  { docs := [], nextId := 0 }

/-- An interview record of the read path: an interview joined to its
question set by `questionSetId`. -/
structure InterviewRecord where
  interviewId : String
  questionSetId : String
deriving DecidableEq

/-- A question record of the read path, tagged with its question-set id. -/
structure QuestionRecord where
  questionSetId : String
  text : String
deriving DecidableEq

/-- The failures of the by-identifier question source. -/
inductive FetchError where
  | NotFound
  | StorageUnavailable
deriving DecidableEq

/-- Modelled from the spec: the by-identifier `fetchQuestions` variant belongs
to the second source variant of the repository, which is absent from src/.
Per the spec it is a two-step join: "look up the interview record by id
(fails with NotFound if absent), extract its question-set identifier, then
fetch all questions whose question-set identifier matches (string-compared)",
returned in store order. -/
def fetchQuestionsById (interviews : List InterviewRecord)
    (questions : List QuestionRecord) (interviewId : String) :
    Except FetchError (List String) :=
  match interviews.find? (fun r => r.interviewId == interviewId) with
  | none => Except.error FetchError.NotFound
  | some r =>
      Except.ok (((questions.filter
        (fun q => q.questionSetId == r.questionSetId)).map
          (fun q => q.text)))

/-- The decimal digit character of `m < 10` decodes back to `m`. -/
theorem digitChar_toNat_sub (m : Nat) (h : m < 10) :
    (Nat.digitChar m).toNat - 48 = m := by
  interval_cases m <;> decide

/-- Decoding the decimal rendering of `n` gives back `n`. -/
theorem unDigits_natDigits (n : Nat) : unDigits (natDigits n) = n := by
  induction n using Nat.strong_induction_on with
  | _ n ih =>
    rw [natDigits]
    by_cases h0 : n = 0
    · simp [h0, unDigits]
    · rw [if_neg h0]
      have ihd := ih (n / 10) (Nat.div_lt_self (Nat.pos_of_ne_zero h0) (by decide))
      simp only [unDigits, List.foldl_append, List.foldl] at ihd ⊢
      rw [ihd, digitChar_toNat_sub (n % 10) (Nat.mod_lt n (by decide))]
      omega

/-- Decoding the rendered record identifier gives back the identifier, so the
rendering is injective. -/
theorem unDigits_pyStr (n : Nat) : unDigits (pyStr n).data = n := by
  rw [pyStr]
  by_cases h0 : n = 0
  · subst h0
    rw [if_pos rfl]
    decide
  · rw [if_neg h0]
    exact unDigits_natDigits n

/-- A two-interview, three-question demonstration read store. -/
def demoInterviews : List InterviewRecord :=
  [{ interviewId := "i42", questionSetId := "qs1" },
   { interviewId := "i43", questionSetId := "qs2" }]

/-- Questions for the demonstration read store, across two question sets. -/
def demoQuestions : List QuestionRecord :=
  [{ questionSetId := "qs1", text := "Q1" },
   { questionSetId := "qs2", text := "Q2" },
   { questionSetId := "qs1", text := "Q3" }]

/-- The domain lookup reduces to a catalog lookup with `generalQuestions` as
the default value. -/
theorem get_interview_questions_eq (domain : String) :
    get_interview_questions domain
      = (dictLookup interview_questions (normalizeDomain domain)).getD
          generalQuestions := by
  unfold get_interview_questions
  cases hl : dictLookup interview_questions (normalizeDomain domain) with
  | none => simp [hl]; rfl
  | some q => simp [hl]

/-- Claim C2: for every input domain string, `get_interview_questions` returns
a non-empty list, identical across repeated calls with the same input (the
function is pure), and whenever the normalized input is not one of the catalog
keys it returns the question set of the default key `"general"`. -/
theorem get_interview_questions_total_and_fallback (domain : String) :
    get_interview_questions domain ≠ [] ∧
    get_interview_questions domain = get_interview_questions domain ∧
    (dictLookup interview_questions (normalizeDomain domain) = none →
      get_interview_questions domain = generalQuestions) := by
  refine ⟨?_, rfl, ?_⟩
  · rw [get_interview_questions_eq]
    cases hl : dictLookup interview_questions (normalizeDomain domain) with
    | none => decide
    | some q => exact dictLookup_interview_ne_nil _ q hl
  · intro h
    rw [get_interview_questions_eq, h]
    rfl

/-- Witness for C2 at the unknown domain `"quantum_computing"`. -/
theorem get_interview_questions_total_and_fallback_witness :
    get_interview_questions "quantum_computing" ≠ [] ∧
    get_interview_questions "quantum_computing"
      = get_interview_questions "quantum_computing" ∧
    get_interview_questions "quantum_computing" = generalQuestions := by
  have h := get_interview_questions_total_and_fallback "quantum_computing"
  exact ⟨h.1, h.2.1, h.2.2 (by decide)⟩

/-- Claim C7: `"Data Science"` normalizes to `data_science` and yields the
5-question data-science set; the unknown domain `"quantum_computing"` falls
back to the 5-question general set. -/
theorem scenario_data_science_and_unknown_domain :
    normalizeDomain "Data Science" = "data_science" ∧
    get_interview_questions "Data Science" = dataScienceQuestions ∧
    dataScienceQuestions.length = 5 ∧
    get_interview_questions "quantum_computing" = generalQuestions ∧
    generalQuestions.length = 5 := by
  decide

/-- Claim C8: the domain normalization (lower-case, then replace every space
with an underscore) is idempotent. -/
theorem normalizeDomain_idempotent (s : String) :
    normalizeDomain (normalizeDomain s) = normalizeDomain s :=
  congrArg String.mk (map_normalize_idem s.data)

/-- Claim C10: the `software_engineering` question set has exactly 3
questions, while every other catalog key yields exactly 5. -/
theorem question_set_sizes_not_uniform (d : String)
    (h : normalizeDomain d = "software_engineering") :
    (get_interview_questions d).length = 3 ∧
    (get_interview_questions "data_science").length = 5 ∧
    (get_interview_questions "product_management").length = 5 ∧
    (get_interview_questions "machine_learning").length = 5 ∧
    (get_interview_questions "cybersecurity").length = 5 ∧
    (get_interview_questions "general").length = 5 := by
  refine ⟨?_, by decide, by decide, by decide, by decide, by decide⟩
  rw [get_interview_questions_eq, h]
  decide

/-- Witness for C10 at the input `"Software Engineering"`. -/
theorem question_set_sizes_not_uniform_witness :
    (get_interview_questions "Software Engineering").length = 3 ∧
    (get_interview_questions "data_science").length = 5 ∧
    (get_interview_questions "product_management").length = 5 ∧
    (get_interview_questions "machine_learning").length = 5 ∧
    (get_interview_questions "cybersecurity").length = 5 ∧
    (get_interview_questions "general").length = 5 :=
  question_set_sizes_not_uniform "Software Engineering" (by decide)

/-- Claim C3: every successful call of `save_single_interview_answer` performs
exactly one insert of a record carrying the supplied user id, domain, question
number, question text and answer text plus the timestamp captured at call
time, and returns the store-assigned identifier of that record as a string. -/
theorem save_success_inserts_once (now : Nat) (fault : Bool)
    (s : AnswersCollection) (u q a dom : String) (n : Int) (rid : String)
    (h : (save_single_interview_answer now fault s u q a dom n).result
          = Except.ok rid) :
    (save_single_interview_answer now fault s u q a dom n).store.docs
        = s.docs ++ [(s.nextId,
            { user_id := u, domain := dom, timestamp := now,
              question_number := n, question := q, answer := a })] ∧
    (save_single_interview_answer now fault s u q a dom n).insertAttempts = 1 ∧
    rid = pyStr s.nextId := by
  cases fault with
  | true => simp [save_single_interview_answer] at h
  | false =>
      simp only [save_single_interview_answer, Bool.false_eq_true, if_false,
        Except.ok.injEq] at h
      exact ⟨rfl, rfl, h.symm⟩

/-- Witness for C3 on an empty store. -/
theorem save_success_inserts_once_witness :
    (save_single_interview_answer 5 false emptyAnswers "u1" "Q1" "A1" "general" 0).store.docs
        = emptyAnswers.docs ++ [(emptyAnswers.nextId,
            { user_id := "u1", domain := "general", timestamp := 5,
              question_number := 0, question := "Q1", answer := "A1" })] ∧
    (save_single_interview_answer 5 false emptyAnswers "u1" "Q1" "A1" "general" 0).insertAttempts = 1 ∧
    pyStr 0 = pyStr emptyAnswers.nextId :=
  save_success_inserts_once 5 false emptyAnswers "u1" "Q1" "A1" "general" 0
    (pyStr 0) rfl

/-- Claim C4: when the storage layer faults, `save_single_interview_answer`
propagates the failure to the caller (no normal return), attempts the insert
exactly once (no internal retry), and leaves the store unchanged. -/
theorem save_fault_propagates_no_retry (now : Nat) (s : AnswersCollection)
    (u q a dom : String) (n : Int) :
    (save_single_interview_answer now true s u q a dom n).result
        = Except.error SaveError.persistenceFailure ∧
    (save_single_interview_answer now true s u q a dom n).insertAttempts = 1 ∧
    (save_single_interview_answer now true s u q a dom n).store = s :=
  ⟨rfl, rfl, rfl⟩

/-- Amended C5: the call opens exactly one connection and closes it on the
success path, but on a storage fault the re-raise skips `client.close()`, so
no connection is closed on that exit path. -/
theorem save_connection_lifecycle (now : Nat) (fault : Bool)
    (s : AnswersCollection) (u q a dom : String) (n : Int) :
    (save_single_interview_answer now fault s u q a dom n).connectionsOpened = 1 ∧
    (save_single_interview_answer now fault s u q a dom n).connectionsClosed
        = if fault then 0 else 1 := by
  cases fault <;> exact ⟨rfl, rfl⟩

/-- Counterexample to C5 as stated: on a faulting call the one acquired
connection is not released before the call completes. -/
theorem save_fault_leaves_connection_open :
    (save_single_interview_answer 0 true emptyAnswers "u1" "Q1" "A1" "general" 0).connectionsOpened = 1 ∧
    (save_single_interview_answer 0 true emptyAnswers "u1" "Q1" "A1" "general" 0).connectionsClosed = 0 :=
  ⟨rfl, rfl⟩

/-- Claim C6: two successive successful calls with identical arguments insert
two records and return two distinct identifiers — the store deduplicates
nothing and enforces no uniqueness. -/
theorem save_twice_two_records (now1 now2 : Nat) (s : AnswersCollection)
    (u q a dom : String) (n : Int) :
    (save_single_interview_answer now1 false s u q a dom n).result
        = Except.ok (pyStr s.nextId) ∧
    (save_single_interview_answer now2 false
        (save_single_interview_answer now1 false s u q a dom n).store
        u q a dom n).result
        = Except.ok (pyStr (s.nextId + 1)) ∧
    pyStr s.nextId ≠ pyStr (s.nextId + 1) ∧
    (save_single_interview_answer now2 false
        (save_single_interview_answer now1 false s u q a dom n).store
        u q a dom n).store.docs.length
        = s.docs.length + 2 := by
  refine ⟨rfl, rfl, ?_, ?_⟩
  · intro hcontra
    have h2 := congrArg (fun t => unDigits t.data) hcontra
    simp only [unDigits_pyStr] at h2
    omega
  · simp [save_single_interview_answer]

/-- Claim C9: the by-identifier question source signals `NotFound` when no
interview record matches the identifier, and for a resolving identifier
returns exactly the questions whose question-set id equals the interview's
recorded question-set id. -/
theorem fetchQuestionsById_not_found_and_join
    (interviews : List InterviewRecord) (questions : List QuestionRecord)
    (interviewId : String) :
    ((∀ r ∈ interviews, r.interviewId ≠ interviewId) →
        fetchQuestionsById interviews questions interviewId
          = Except.error FetchError.NotFound) ∧
    (∀ r, interviews.find? (fun x => x.interviewId == interviewId) = some r →
        ∃ l, fetchQuestionsById interviews questions interviewId
              = Except.ok l ∧
          ∀ t, t ∈ l ↔
            ∃ q ∈ questions, q.questionSetId = r.questionSetId ∧ q.text = t) := by
  constructor
  · intro h
    have hf : interviews.find? (fun x => x.interviewId == interviewId) = none := by
      rw [List.find?_eq_none]
      intro x hx
      simpa using h x hx
    simp [fetchQuestionsById, hf]
  · intro r hr
    refine ⟨(questions.filter (fun q => q.questionSetId == r.questionSetId)).map
      (fun q => q.text), by simp [fetchQuestionsById, hr], ?_⟩
    intro t
    simp only [List.mem_map, List.mem_filter, beq_iff_eq]
    constructor
    · rintro ⟨q, ⟨hq, hqs⟩, ht⟩
      exact ⟨q, hq, hqs, ht⟩
    · rintro ⟨q, hq, hqs, ht⟩
      exact ⟨q, ⟨hq, hqs⟩, ht⟩

/-- Witness for C9 on the demonstration read store: an unknown identifier is
`NotFound`, and `"i42"` resolves to exactly the `qs1` questions. -/
theorem fetchQuestionsById_not_found_and_join_witness :
    fetchQuestionsById demoInterviews demoQuestions "missing"
        = Except.error FetchError.NotFound ∧
    fetchQuestionsById demoInterviews demoQuestions "i42"
        = Except.ok ["Q1", "Q3"] := by
  constructor
  · exact (fetchQuestionsById_not_found_and_join demoInterviews demoQuestions
      "missing").1 (by decide)
  · rfl

end InterviewAgent
